import Mathlib

/-!
Verification development for the audio backend job lifecycle and
segment-pipeline orchestrator.

The definitions below are a shallow embedding of the Python sources:
  audio_backend/models/job_manager.py   (JobStatus, AudioSegment,
                                         ProcessingJob, JobManager)
  audio_backend/models/audio_config.py  (AudioProcessingConfig and its
                                         pipeline-stage validator)
  audio_backend/pipeline/processor.py   (AudioPipelineProcessor)
  audio_backend/main.py                 (process_job background task)

Modelling conventions:
  - `datetime.now()` is modelled by a caller-supplied tick `now : Nat`
    (the source calls it once per mutation; `update_job_status` does not
    touch `updated_at`, mirroring the source exactly).
  - `uuid.uuid4()` is modelled by a caller-supplied fresh id string.
  - Python float times and progress values are modelled as rationals.
  - Python dictionaries keyed by strings are modelled as insertion-ordered
    association lists (`assocGet` / `assocSet`), matching the
    insertion-order and in-place-overwrite semantics of dict assignment.
  - The filesystem, ffmpeg subprocess calls and the external model
    wrappers are opaque collaborators; they are modelled by an `Env`
    record (file existence, conversion / concatenation success) and
    `StageWrapper` records (availability, loadedness, and the outcome of
    `load()` / `process()` calls, each either a value or a raised
    exception).  `torch.cuda.empty_cache` has no observable state here
    and is omitted.
  - Python truthiness of optional strings (`if not input_path`) is
    modelled by `optStrTruthy`: `None` and the empty string are falsy.
-/

/-- `JobStatus` enumeration from job_manager.py. -/
inductive JobStatus where
  | queued
  | running
  | paused
  | completed
  | failed
  | cancelled
deriving DecidableEq, BEq, Repr

/-- `JobStatus(value)` construction: returns the member whose value
matches, or `none` where the Python constructor raises `ValueError`. -/
def JobStatus.ofString? (s : String) : Option JobStatus :=
  if s = "queued" then some JobStatus.queued
  else if s = "running" then some JobStatus.running
  else if s = "paused" then some JobStatus.paused
  else if s = "completed" then some JobStatus.completed
  else if s = "failed" then some JobStatus.failed
  else if s = "cancelled" then some JobStatus.cancelled
  else none

/-- Python `str.lower()` (character-wise lowering, written on the
character list so that it evaluates by kernel reduction). -/
def pyLower (s : String) : String := ⟨s.data.map Char.toLower⟩

/-- Python truthiness of an optional string: `None` and `""` are falsy. -/
def optStrTruthy : Option String → Bool
  | none => false
  | some s => !s.isEmpty

/-- One element of the `segments: List[Dict]` argument of
`JobManager.create_job`; the dict keys read by the source
(`start_time`, `end_time`, `duration`, `original_path`). -/
structure SegmentSpec where
  start_time : Option ℚ
  end_time : Option ℚ
  duration : Option ℚ
  original_path : Option String
deriving DecidableEq, Repr

/-- `AudioSegment` from job_manager.py. -/
structure AudioSegment where
  index : Nat
  start_time : ℚ
  end_time : ℚ
  duration : ℚ
  original_path : Option String
  status : JobStatus
  preview_path : Option String
  result_path : Option String
deriving DecidableEq, Repr

/-- `AudioSegment.__init__` applied to one segment dict, with the
`.get` defaults of `ProcessingJob.__init__`
(`start_time` defaults to 0.0, `end_time` to `start_time + duration`,
`duration` to 10.0). -/
def mk_segment (idx : Nat) (s : SegmentSpec) : AudioSegment :=
  let st := s.start_time.getD 0
  let en := s.end_time.getD (s.start_time.getD 0 + s.duration.getD 10)
  { index := idx
    start_time := st
    end_time := en
    duration := en - st
    original_path := s.original_path
    status := JobStatus.queued
    preview_path := none
    result_path := none }

/-- Outcome of one pipeline stage as recorded in the per-segment
`result["stages"]` dict of `_process_segment`. -/
inductive StageRecord where
  | completed (output : Option String)
  | skipped (reason : String)
  | failed (error : String)
deriving DecidableEq, Repr

/-- Per-segment result dict built by `_process_segment`. -/
structure SegmentResult where
  segment_idx : Nat
  start_time : Option ℚ
  end_time : Option ℚ
  output_path : Option String
  preview_path : Option String
  stages : List (String × StageRecord)
deriving DecidableEq, Repr

/-- The `results` dict built by `AudioPipelineProcessor.process` and
stored whole by `complete_job` (the `metadata` entry is always empty
and omitted). -/
structure ProcessResults where
  job_id : String
  output_path : Option String
  segments : List SegmentResult
deriving DecidableEq, Repr

/-- `AudioProcessingConfig` from audio_config.py, flattened to the
fields the orchestrator reads: the stage order list, each sub-config's
`enabled` flag, `processing.clear_cache_between_segments`, and
`quality.output_format` (the numeric stage parameters are only passed
through to the opaque wrappers and are not modelled). -/
structure AudioProcessingConfig where
  pipeline_stages : List String
  swiftf0_enabled : Bool
  svc_enabled : Bool
  instrumental_enabled : Bool
  mixing_enabled : Bool
  clear_cache_between_segments : Bool
  output_format : String
deriving DecidableEq, Repr

/-- The fixed stage registry of the `validate_pipeline_stages`
validator in audio_config.py. -/
def valid_pipeline_stage_names : List String :=
  ["swiftf0", "svc", "instrumental", "mixing"]

/-- The pydantic validator `AudioProcessingConfig.validate_pipeline_stages`:
raises `ValueError` on the first unknown stage name, otherwise returns
the list unchanged. -/
def validate_pipeline_stages (v : List String) : Except String (List String) :=
  match v.find? (fun s => !(valid_pipeline_stage_names.contains s)) with
  | some s => Except.error ("Invalid pipeline stage: " ++ s)
  | none => Except.ok v

/-- `ProcessingJob` from job_manager.py (the `results` dict starts
empty, modelled as `none` until `complete_job` stores one). -/
structure ProcessingJob where
  job_id : String
  config : AudioProcessingConfig
  status : JobStatus
  progress : ℚ
  current_stage : String
  segments_completed : Nat
  segments_total : Nat
  message : String
  created_at : Nat
  updated_at : Nat
  results : Option ProcessResults
  preview_url : Option String
  segments : List AudioSegment
deriving DecidableEq, Repr

/-- `ProcessingJob.__init__`. -/
def ProcessingJob.create (job_id : String) (cfg : AudioProcessingConfig)
    (specs : List SegmentSpec) (now : Nat) : ProcessingJob :=
  { job_id := job_id
    config := cfg
    status := JobStatus.queued
    progress := 0
    current_stage := "initialization"
    segments_completed := 0
    segments_total := specs.length
    message := "Job created"
    created_at := now
    updated_at := now
    results := none
    preview_url := none
    segments := specs.enum.map (fun p => mk_segment p.1 p.2) }

/-- `ProcessingJob.update_progress`: sets the three fields and bumps
`updated_at`, unconditionally. -/
def ProcessingJob.update_progress (j : ProcessingJob) (p : ℚ)
    (stage msg : String) (now : Nat) : ProcessingJob :=
  { j with progress := p, current_stage := stage, message := msg, updated_at := now }

/-- The predicate of the `segments_completed` recomputation:
`seg.status in [JobStatus.COMPLETED, JobStatus.FAILED]`. -/
def segStatusDone (s : AudioSegment) : Bool :=
  s.status == JobStatus.completed || s.status == JobStatus.failed

/-- The in-place field updates applied to one segment by
`ProcessingJob.update_segment_status` (paths only overwritten when the
supplied value is truthy). -/
def AudioSegment.apply_status_update (s : AudioSegment) (status : JobStatus)
    (pp rp : Option String) : AudioSegment :=
  { s with
    status := status
    preview_path :=
      match pp with
      | some p => if p.isEmpty then s.preview_path else some p
      | none => s.preview_path
    result_path :=
      match rp with
      | some p => if p.isEmpty then s.result_path else some p
      | none => s.result_path }

/-- `ProcessingJob.update_segment_status`: guarded by
`0 <= segment_index < len(self.segments)`; recomputes
`segments_completed` from the segment list and bumps `updated_at`. -/
def ProcessingJob.update_segment_status (j : ProcessingJob) (idx : Nat)
    (status : JobStatus) (pp rp : Option String) (now : Nat) : ProcessingJob :=
  match j.segments[idx]? with
  | some s =>
    let segs := j.segments.set idx (s.apply_status_update status pp rp)
    { j with segments := segs, segments_completed := segs.countP segStatusDone, updated_at := now }
  | none => j

/-- Lookup in an insertion-ordered association list (Python dict read). -/
def assocGet {α : Type} : List (String × α) → String → Option α
  | [], _ => none
  | (k', v') :: t, k => if k' = k then some v' else assocGet t k

/-- Write in an insertion-ordered association list (Python dict
assignment: overwrite in place if the key exists, else append). -/
def assocSet {α : Type} : List (String × α) → String → α → List (String × α)
  | [], k, v => [(k, v)]
  | (k', v') :: t, k, v => if k' = k then (k, v) :: t else (k', v') :: assocSet t k v

/-- `JobManager` from job_manager.py: the in-memory `jobs` dict plus the
on-disk metadata snapshots written by `_save_job_metadata` (one record
per job id; the snapshot is `job.to_dict()`, a field-for-field
serialization, modelled by the job value itself). -/
structure JobManager where
  jobs : List (String × ProcessingJob)
  store : List (String × ProcessingJob)

/-- A fresh `JobManager()`. -/
def JobManager.empty : JobManager := { jobs := [], store := [] }

/-- Record a (mutated-in-place) job back into the manager: the `jobs`
dict entry under the key it was fetched from, and the metadata snapshot
keyed by `job.job_id` (the file name used by `_save_job_metadata`). -/
def JobManager.put (m : JobManager) (key : String) (j : ProcessingJob) : JobManager :=
  { jobs := assocSet m.jobs key j, store := assocSet m.store j.job_id j }

/-- `JobManager.get_job`. -/
def JobManager.get_job (m : JobManager) (idv : String) : Option ProcessingJob :=
  assocGet m.jobs idv

/-- `JobManager.create_job` (the uuid is the caller-supplied `idv`). -/
def JobManager.create_job (m : JobManager) (cfg : AudioProcessingConfig)
    (specs : List SegmentSpec) (idv : String) (now : Nat) : JobManager × String :=
  (m.put idv (ProcessingJob.create idv cfg specs now), idv)

/-- `JobManager.update_job_status`: unconditional field writes when the
job exists (no terminal-state check, `updated_at` untouched), then a
snapshot save. -/
def JobManager.update_job_status (m : JobManager) (idv : String)
    (status : JobStatus) (msg : String) (progress : Option ℚ) : JobManager :=
  match m.get_job idv with
  | some j =>
    m.put idv
      { j with
        status := status
        message := msg
        progress :=
          match progress with
          | some p => p
          | none => j.progress }
  | none => m

/-- `JobManager.update_job_progress`. -/
def JobManager.update_job_progress (m : JobManager) (idv : String) (p : ℚ)
    (stage msg : String) (now : Nat) : JobManager :=
  match m.get_job idv with
  | some j => m.put idv (j.update_progress p stage msg now)
  | none => m

/-- `JobManager.update_segment_status`. -/
def JobManager.update_segment_status (m : JobManager) (idv : String) (idx : Nat)
    (status : JobStatus) (pp rp : Option String) (now : Nat) : JobManager :=
  match m.get_job idv with
  | some j => m.put idv (j.update_segment_status idx status pp rp now)
  | none => m

/-- `JobManager.complete_job`: unconditional when the job exists. -/
def JobManager.complete_job (m : JobManager) (idv : String)
    (results : ProcessResults) (now : Nat) : JobManager :=
  match m.get_job idv with
  | some j =>
    m.put idv
      { j with
        status := JobStatus.completed
        progress := 100
        current_stage := "completed"
        message := "Job completed successfully"
        results := some results
        updated_at := now }
  | none => m

/-- `JobManager.fail_job`: unconditional when the job exists (does not
touch `progress` or `results`). -/
def JobManager.fail_job (m : JobManager) (idv : String) (err : String)
    (now : Nat) : JobManager :=
  match m.get_job idv with
  | some j =>
    m.put idv
      { j with
        status := JobStatus.failed
        current_stage := "failed"
        message := "Job failed: " ++ err
        updated_at := now }
  | none => m

/-- `JobManager.cancel_job`: only from `QUEUED` or `RUNNING`, else
returns the manager unchanged with `false`. -/
def JobManager.cancel_job (m : JobManager) (idv : String) (now : Nat) :
    JobManager × Bool :=
  match m.get_job idv with
  | some j =>
    if j.status = JobStatus.queued ∨ j.status = JobStatus.running then
      (m.put idv
        { j with
          status := JobStatus.cancelled
          message := "Job cancelled"
          updated_at := now }, true)
    else (m, false)
  | none => (m, false)

/-- `JobManager.list_jobs`: optional status filter (a truthy filter
string that does not parse as a `JobStatus` is silently ignored), then
a stable sort by `created_at` descending, then the limit.  `to_dict`
serialization is the identity here. -/
def JobManager.list_jobs (m : JobManager) (limit : Nat)
    (status_filter : Option String) : List ProcessingJob :=
  let js := m.jobs.map Prod.snd
  let js :=
    match status_filter with
    | some s =>
      if !s.isEmpty then
        match JobStatus.ofString? (pyLower s) with
        | some fs => js.filter (fun (j : ProcessingJob) => j.status == fs)
        | none => js
      else js
    | none => js
  (js.mergeSort (fun a b => decide (b.created_at ≤ a.created_at))).take limit

/-- `JobManager.delete_job` (file removal has no model state beyond the
snapshot entry). -/
def JobManager.delete_job (m : JobManager) (idv : String) : JobManager × Bool :=
  if (assocGet m.jobs idv).isSome then
    ({ jobs := m.jobs.filter (fun p => !(p.1 == idv))
       store := m.store.filter (fun p => !(p.1 == idv)) }, true)
  else (m, false)

/-- Outcome of a call into an external collaborator: a returned value
or a raised exception carrying `str(e)`. -/
inductive CallResult (α : Type) where
  | ok (val : α)
  | exn (msg : String)
deriving DecidableEq, Repr

/-- One model wrapper (SwiftF0 / SVC / Instrumental) as observed by the
processor: the stage contract `is_available` / `is_loaded` / `load` /
`process`.  `process` returns a truthiness flag (the source tests
`if result:`); `is_available` may itself raise, which is the only way an
exception escapes the per-stage helper. -/
structure StageWrapper where
  is_available : CallResult Bool
  is_loaded : Bool
  load : CallResult Unit
  process : CallResult Bool

/-- The three wrapper instances handed to `AudioPipelineProcessor.process`. -/
structure Wrappers where
  swiftf0 : StageWrapper
  svc : StageWrapper
  instrumental : StageWrapper

/-- Opaque host environment: file existence, and whether the two ffmpeg
subprocess invocations (`_convert_audio`, the concat in
`_combine_segments`) succeed (`check=True` raises on failure). -/
structure Env where
  fsExists : String → Bool
  convertOk : Bool
  concatOk : Bool

/-- Output path `{temp_dir}/{job_id}_segment_{idx}_{name}.wav`. -/
def stage_out_path (tmp job_id : String) (idx : Nat) (name : String) : String :=
  tmp ++ "/" ++ job_id ++ "_segment_" ++ toString idx ++ "_" ++ name ++ ".wav"

/-- The `try` body tail shared by `_process_swiftf0` / `_process_svc` /
`_process_instrumental`: invoke `wrapper.process`; a raised exception is
caught and the input returned; a falsy result also returns the input. -/
def stage_exec_process (input_path : Option String) (w : StageWrapper)
    (output_path : String) : CallResult (Option String) :=
  match w.process with
  | CallResult.exn _ => CallResult.ok input_path
  | CallResult.ok true => CallResult.ok (some output_path)
  | CallResult.ok false => CallResult.ok input_path

/-- `_process_swiftf0` / `_process_svc` / `_process_instrumental` (the
three share this exact shape; they differ only in the parameters passed
through to the opaque wrapper and in the output file suffix): falsy
input or an unavailable wrapper passes the input through; the `try`
block catches `load` and `process` errors and passes the input through;
an exception raised by `is_available()` itself propagates. -/
def stage_exec (input_path : Option String) (w : StageWrapper)
    (output_path : String) : CallResult (Option String) :=
  match input_path with
  | none => CallResult.ok none
  | some ip =>
    if ip.isEmpty then CallResult.ok (some ip)
    else
      match w.is_available with
      | CallResult.exn m => CallResult.exn m
      | CallResult.ok false => CallResult.ok (some ip)
      | CallResult.ok true =>
        if !w.is_loaded then
          match w.load with
          | CallResult.exn _ => CallResult.ok (some ip)
          | CallResult.ok _ => stage_exec_process (some ip) w output_path
        else stage_exec_process (some ip) w output_path

/-- Write into the per-segment `result["stages"]` dict. -/
def dictSet (d : List (String × StageRecord)) (k : String) (v : StageRecord) :
    List (String × StageRecord) :=
  assocSet d k v

/-- The body of the stage loop of `_process_segment` for one `stage`
name: the enabled-stage dispatch, with the surrounding `try/except`
that records `failed(str(e))` and keeps the previous current audio when
a branch raises.  A successful branch records
`completed(output=current_audio)` with the new current audio; the
mixing branch records `skipped`; a disabled or unknown stage name
records nothing. -/
def run_stage (env : Env) (tmp : String) (ws : Wrappers)
    (cfg : AudioProcessingConfig) (job_id : String) (idx : Nat)
    (st : Option String × List (String × StageRecord)) (stage : String) :
    Option String × List (String × StageRecord) :=
  let current := st.1
  let d := st.2
  if stage = "swiftf0" ∧ cfg.swiftf0_enabled = true then
    match stage_exec current ws.swiftf0 (stage_out_path tmp job_id idx "swiftf0") with
    | CallResult.ok out => (out, dictSet d "swiftf0" (StageRecord.completed out))
    | CallResult.exn m => (current, dictSet d stage (StageRecord.failed m))
  else if stage = "svc" ∧ cfg.svc_enabled = true then
    match stage_exec current ws.svc (stage_out_path tmp job_id idx "svc") with
    | CallResult.ok out => (out, dictSet d "svc" (StageRecord.completed out))
    | CallResult.exn m => (current, dictSet d stage (StageRecord.failed m))
  else if stage = "instrumental" ∧ cfg.instrumental_enabled = true then
    match stage_exec current ws.instrumental (stage_out_path tmp job_id idx "instrumental") with
    | CallResult.ok out => (out, dictSet d "instrumental" (StageRecord.completed out))
    | CallResult.exn m => (current, dictSet d stage (StageRecord.failed m))
  else if stage = "mixing" ∧ cfg.mixing_enabled = true then
    (current, dictSet d "mixing" (StageRecord.skipped "Requires multiple tracks"))
  else (current, d)

/-- `AudioPipelineProcessor._process_segment`: resolve the original
audio reference (dropped when missing on disk), run the stage loop,
then convert and record the final audio when a truthy current reference
exists on disk (`_convert_audio` may raise, which propagates). -/
def process_segment (env : Env) (tmp : String) (job_id : String) (idx : Nat)
    (seg : SegmentSpec) (cfg : AudioProcessingConfig) (ws : Wrappers) :
    CallResult SegmentResult :=
  let original : Option String :=
    match seg.original_path with
    | some p => if !p.isEmpty && env.fsExists p then some p else none
    | none => none
  let folded := cfg.pipeline_stages.foldl (run_stage env tmp ws cfg job_id idx) (original, [])
  let current := folded.1
  let stages := folded.2
  match current with
  | some ca =>
    if !ca.isEmpty && env.fsExists ca then
      if env.convertOk then
        let outp := tmp ++ "/" ++ job_id ++ "_segment_" ++ toString idx ++ "_final.wav"
        CallResult.ok
          { segment_idx := idx, start_time := seg.start_time, end_time := seg.end_time,
            output_path := some outp, preview_path := some outp, stages := stages }
      else CallResult.exn "ffmpeg conversion failed"
    else
      CallResult.ok
        { segment_idx := idx, start_time := seg.start_time, end_time := seg.end_time,
          output_path := none, preview_path := none, stages := stages }
  | none =>
    CallResult.ok
      { segment_idx := idx, start_time := seg.start_time, end_time := seg.end_time,
        output_path := none, preview_path := none, stages := stages }

/-- One iteration of the segment loop of `AudioPipelineProcessor.process`:
report `idx / total * 100` job progress, mark the segment `RUNNING`,
process it, and on success mark it `COMPLETED` with the produced paths.
The source performs no job-status check anywhere in this loop; awaits
inside `_process_segment` are the suspension points between which other
tasks (for example a cancel request) may run. -/
def segment_step (env : Env) (tmp : String) (ws : Wrappers)
    (cfg : AudioProcessingConfig) (job_id : String) (total now : Nat)
    (m : JobManager) (idx : Nat) (seg : SegmentSpec) :
    JobManager × CallResult SegmentResult :=
  let m1 := m.update_job_progress job_id ((idx : ℚ) / (total : ℚ) * 100)
    ("processing_segment_" ++ toString idx)
    ("Processing segment " ++ toString (idx + 1) ++ "/" ++ toString total) now
  let m2 := m1.update_segment_status job_id idx JobStatus.running none none now
  match process_segment env tmp job_id idx seg cfg ws with
  | CallResult.ok r =>
    (m2.update_segment_status job_id idx JobStatus.completed r.preview_path r.output_path now,
     CallResult.ok r)
  | CallResult.exn e => (m2, CallResult.exn e)

/-- The segment loop of `AudioPipelineProcessor.process` over the
enumerated segment list, threading the manager and accumulating the
per-segment results; an escaped exception aborts the loop. -/
def process_loop (env : Env) (tmp : String) (ws : Wrappers)
    (cfg : AudioProcessingConfig) (job_id : String) (total now : Nat) :
    JobManager → List SegmentResult → List (Nat × SegmentSpec) →
    JobManager × CallResult (List SegmentResult)
  | m, acc, [] => (m, CallResult.ok acc)
  | m, acc, p :: rest =>
    match segment_step env tmp ws cfg job_id total now m p.1 p.2 with
    | (m', CallResult.ok r) => process_loop env tmp ws cfg job_id total now m' (acc ++ [r]) rest
    | (m', CallResult.exn e) => (m', CallResult.exn e)

/-- `AudioPipelineProcessor._combine_segments`: filter to segments with
a truthy `output_path`, raise `ValueError("No valid segments to
combine")` when none remain, then concatenate via ffmpeg (`check=True`
raises on failure). -/
def combine_segments (env : Env) (tmp : String) (segs : List SegmentResult)
    (cfg : AudioProcessingConfig) (job_id : String) : CallResult String :=
  let valid := segs.filter (fun s => optStrTruthy s.output_path)
  if valid.isEmpty then CallResult.exn "No valid segments to combine"
  else if env.concatOk then
    CallResult.ok (tmp ++ "/" ++ job_id ++ "_combined." ++ cfg.output_format)
  else CallResult.exn "ffmpeg concat failed"

/-- `AudioPipelineProcessor.process`: the segment loop, then the 90%
progress report, the combiner, and the 100% report; the `except` clause
re-raises any escaped exception unchanged. -/
def process (env : Env) (tmp : String) (ws : Wrappers) (job_id : String)
    (cfg : AudioProcessingConfig) (specs : List SegmentSpec)
    (m : JobManager) (now : Nat) : JobManager × CallResult ProcessResults :=
  match process_loop env tmp ws cfg job_id specs.length now m [] specs.enum with
  | (m', CallResult.exn e) => (m', CallResult.exn e)
  | (m', CallResult.ok rs) =>
    let m2 := m'.update_job_progress job_id 90 "combining_segments"
      "Combining processed segments" now
    match combine_segments env tmp rs cfg job_id with
    | CallResult.exn e => (m2, CallResult.exn e)
    | CallResult.ok outp =>
      let m3 := m2.update_job_progress job_id 100 "completed"
        "Processing completed successfully" now
      (m3, CallResult.ok { job_id := job_id, output_path := some outp, segments := rs })

/-- `process_job` from main.py: mark the job `RUNNING`, run the
pipeline, then `complete_job` on success or `fail_job(str(e))` on any
escaped exception. -/
def process_job (env : Env) (tmp : String) (ws : Wrappers) (job_id : String)
    (cfg : AudioProcessingConfig) (specs : List SegmentSpec)
    (m : JobManager) (now : Nat) : JobManager :=
  let m1 := m.update_job_status job_id JobStatus.running "Starting pipeline" none
  match process env tmp ws job_id cfg specs m1 now with
  | (m2, CallResult.ok results) => m2.complete_job job_id results now
  | (m2, CallResult.exn e) => m2.fail_job job_id e now

/-- One externally invokable `JobManager` mutation, for stating
properties over arbitrary operation sequences. -/
inductive JMOp where
  | create (cfg : AudioProcessingConfig) (specs : List SegmentSpec) (idv : String) (now : Nat)
  | updateStatus (idv : String) (st : JobStatus) (msg : String) (progress : Option ℚ)
  | updateProgress (idv : String) (p : ℚ) (stage msg : String) (now : Nat)
  | updateSegment (idv : String) (idx : Nat) (st : JobStatus) (pp rp : Option String) (now : Nat)
  | complete (idv : String) (results : ProcessResults) (now : Nat)
  | fail (idv : String) (err : String) (now : Nat)
  | cancel (idv : String) (now : Nat)
  | delete (idv : String)

/-- Dispatch one operation to the corresponding `JobManager` method. -/
def JobManager.apply (m : JobManager) : JMOp → JobManager
  | JMOp.create cfg specs idv now => (m.create_job cfg specs idv now).1
  | JMOp.updateStatus idv st msg progress => m.update_job_status idv st msg progress
  | JMOp.updateProgress idv p stage msg now => m.update_job_progress idv p stage msg now
  | JMOp.updateSegment idv idx st pp rp now => m.update_segment_status idv idx st pp rp now
  | JMOp.complete idv results now => m.complete_job idv results now
  | JMOp.fail idv err now => m.fail_job idv err now
  | JMOp.cancel idv now => (m.cancel_job idv now).1
  | JMOp.delete idv => (m.delete_job idv).1

/-- Run a sequence of operations from a fresh manager. -/
def JobManager.run_ops (ops : List JMOp) : JobManager :=
  ops.foldl JobManager.apply JobManager.empty

/-- Extract the value of a successful call, with a fallback. -/
def CallResult.getOkD {α : Type} (c : CallResult α) (d : α) : α :=
  match c with
  | CallResult.ok v => v
  | CallResult.exn _ => d

/-- A default pipeline configuration: the standard stage order with
every stage enabled (the pydantic field defaults). -/
def cfg0 : AudioProcessingConfig :=
  { pipeline_stages := ["swiftf0", "svc", "instrumental", "mixing"]
    swiftf0_enabled := true
    svc_enabled := true
    instrumental_enabled := true
    mixing_enabled := true
    clear_cache_between_segments := true
    output_format := "wav" }

/-- A segment spec with explicit bounds and no source audio. -/
def spec0 : SegmentSpec :=
  { start_time := some 0, end_time := some 30, duration := none, original_path := none }

/-- A host where no file exists and both ffmpeg invocations succeed. -/
def env0 : Env := { fsExists := fun _ => false, convertOk := true, concatOk := true }

/-- A host where every file exists and both ffmpeg invocations succeed. -/
def env1 : Env := { fsExists := fun _ => true, convertOk := true, concatOk := true }

/-- A wrapper that reports unavailable. -/
def wUnavailable : StageWrapper :=
  { is_available := CallResult.ok false, is_loaded := false
    load := CallResult.ok (), process := CallResult.ok false }

/-- A loaded, available wrapper whose `process` succeeds. -/
def wOk : StageWrapper :=
  { is_available := CallResult.ok true, is_loaded := true
    load := CallResult.ok (), process := CallResult.ok true }

/-- A loaded, available wrapper whose `process` raises. -/
def wRaises : StageWrapper :=
  { is_available := CallResult.ok true, is_loaded := true
    load := CallResult.ok (), process := CallResult.exn "CUDA out of memory" }

/-- All three wrappers unavailable. -/
def ws0 : Wrappers :=
  { swiftf0 := wUnavailable, svc := wUnavailable, instrumental := wUnavailable }

/-- SwiftF0 working, the other two unavailable. -/
def ws1 : Wrappers :=
  { swiftf0 := wOk, svc := wUnavailable, instrumental := wUnavailable }

/-- A fallback job value for total projections out of `Option`. -/
def dummyJob : ProcessingJob := ProcessingJob.create "dummy" cfg0 [] 0

/-- A fallback segment-result value. -/
def dummySegmentResult : SegmentResult :=
  { segment_idx := 0, start_time := none, end_time := none
    output_path := none, preview_path := none, stages := [] }

/- C1 scenario: a job driven to FAILED, then hit with `complete_job`. -/

/-- Manager holding one freshly created job `job1`. -/
def c1m0 : JobManager := (JobManager.empty.create_job cfg0 [spec0] "job1" 0).1

/-- ... after `fail_job`: `job1` is FAILED (terminal per the spec). -/
def c1m1 : JobManager := c1m0.fail_job "job1" "disk full" 1

/-- ... after a subsequent `complete_job` on the terminal job. -/
def c1m2 : JobManager :=
  c1m1.complete_job "job1" { job_id := "job1", output_path := some "out.wav", segments := [] } 2

/-- The FAILED job value, extracted for use as a theorem instance. -/
def c1job : ProcessingJob := (c1m1.get_job "job1").getD dummyJob

/- C2 scenario: a RUNNING job at progress 50, then a progress update to 10. -/

/-- Manager whose job `job1` is RUNNING with progress 50. -/
def c2m1 : JobManager :=
  c1m0.update_job_status "job1" JobStatus.running "halfway" (some 50)

/-- ... after `update_job_progress` back down to 10. -/
def c2m2 : JobManager := c2m1.update_job_progress "job1" 10 "redo" "going backwards" 3

/-- The RUNNING job value at progress 50. -/
def c2job : ProcessingJob := (c2m1.get_job "job1").getD dummyJob

/- C3 scenario: the spec's cancellation test case — a 5-segment job,
cancelled after segment 2 completes, then the orchestrator's next
segment step runs (the source checks no job status in its loop). -/

/-- The five segment specs, each with a source file on disk. -/
def c3specs : List SegmentSpec :=
  [ { start_time := some 0, end_time := some 30, duration := none, original_path := some "src_0.wav" }
  , { start_time := some 30, end_time := some 60, duration := none, original_path := some "src_1.wav" }
  , { start_time := some 60, end_time := some 90, duration := none, original_path := some "src_2.wav" }
  , { start_time := some 90, end_time := some 120, duration := none, original_path := some "src_3.wav" }
  , { start_time := some 120, end_time := some 150, duration := none, original_path := some "src_4.wav" } ]

/-- Job `j3` created and marked RUNNING as `process_job` does. -/
def c3m1 : JobManager :=
  ((JobManager.empty.create_job cfg0 c3specs "j3" 0).1).update_job_status "j3"
    JobStatus.running "Starting pipeline" none

/-- Orchestrator steps for segments 0, 1 and 2. -/
def c3m2 : JobManager := (segment_step env1 "tmp" ws1 cfg0 "j3" 5 0 c3m1 0 (c3specs.getD 0 spec0)).1

/-- Step for segment 1. -/
def c3m3 : JobManager := (segment_step env1 "tmp" ws1 cfg0 "j3" 5 0 c3m2 1 (c3specs.getD 1 spec0)).1

/-- Step for segment 2. -/
def c3m4 : JobManager := (segment_step env1 "tmp" ws1 cfg0 "j3" 5 0 c3m3 2 (c3specs.getD 2 spec0)).1

/-- The cancel request arriving between the segment-2 and segment-3
steps (an await boundary in the source). -/
def c3cancel : JobManager × Bool := c3m4.cancel_job "j3" 7

/-- Manager right after the successful cancellation. -/
def c3m5 : JobManager := c3cancel.1

/-- The orchestrator's next iteration, for segment 3, run after the
cancellation — exactly what the source's status-check-free loop does. -/
def c3final : JobManager := (segment_step env1 "tmp" ws1 cfg0 "j3" 5 0 c3m5 3 (c3specs.getD 3 spec0)).1

/- C4 / C7 share the `run_stage` dispatch; their witnesses use concrete
wrapper records. -/

/- C5 scenario: a segment with no source audio at all — no stage can
produce output, yet the orchestrator still marks it COMPLETED. -/

/-- One-segment job `job5` whose segment has no original audio. -/
def c5m0 : JobManager := (JobManager.empty.create_job cfg0 [spec0] "job5" 0).1

/-- The orchestrator step for that segment. -/
def c5m1 : JobManager := (segment_step env0 "tmp" ws0 cfg0 "job5" 1 1 c5m0 0 spec0).1

/-- The job value before the step. -/
def c5job : ProcessingJob := (c5m0.get_job "job5").getD dummyJob

/-- The segment result the pipeline produces for the audio-less segment. -/
def c5r : SegmentResult :=
  (process_segment env0 "tmp" "job5" 0 spec0 cfg0 ws0).getOkD dummySegmentResult

/- C6 scenario: a segment spec whose end time precedes its start time. -/

/-- end_time 3 < start_time 5: malformed bounds per the spec. -/
def c6spec : SegmentSpec :=
  { start_time := some 5, end_time := some 3, duration := none, original_path := none }

/-- `create_job` accepts the malformed spec without any validation. -/
def c6m : JobManager := (JobManager.empty.create_job cfg0 [c6spec] "job6" 0).1

/- C8 scenario: a one-segment job with no source audio, run end-to-end
through `process_job`; the combiner sees zero valid segments. -/

/-- The specs of the C8 run: a single audio-less segment. -/
def c8specs : List SegmentSpec := [spec0]

/-- Manager holding the freshly created job `job8`. -/
def c8m : JobManager := (JobManager.empty.create_job cfg0 c8specs "job8" 0).1

/-- The created job value. -/
def c8job : ProcessingJob := (c8m.get_job "job8").getD dummyJob

/- C9 scenario: create a two-segment job, complete one segment. -/

/-- Two creations and a segment update. -/
def c9ops : List JMOp :=
  [ JMOp.create cfg0 [spec0, spec0] "j9" 0
  , JMOp.updateSegment "j9" 0 JobStatus.completed none (some "seg0_final.wav") 1 ]

/-- The job observed after the operation sequence. -/
def c9job : ProcessingJob := ((JobManager.run_ops c9ops).get_job "j9").getD dummyJob

/- C10 scenario: two jobs of different statuses, listed with a bogus
status filter. -/

/-- A manager with a QUEUED job and a FAILED job. -/
def c10m : JobManager :=
  (((JobManager.empty.create_job cfg0 [spec0] "jobA" 0).1.create_job cfg0 [spec0] "jobB" 1).1).fail_job
    "jobB" "boom" 2

/-- The spec's `segmentsCompleted` invariant for one job:
`segments_completed` equals the count of segments whose status is
COMPLETED or FAILED. -/
def seg_inv (j : ProcessingJob) : Prop :=
  j.segments_completed = j.segments.countP segStatusDone

/-- The invariant over every entry of the manager's `jobs` dict. -/
def JobManager.entries_inv (m : JobManager) : Prop :=
  ∀ p ∈ m.jobs, seg_inv p.2

/-! Association-list lemmas. -/

/-- Lookup after a write at the same key. -/
theorem assocGet_assocSet_self {α : Type} :
    ∀ (l : List (String × α)) (k : String) (v : α),
      assocGet (assocSet l k v) k = some v
  | [], k, v => by simp [assocSet, assocGet]
  | (k', v') :: t, k, v => by
    by_cases hk : k' = k
    · simp [assocSet, hk, assocGet]
    · simp [assocSet, hk, assocGet, assocGet_assocSet_self t k v]

/-- A successful lookup locates a dict entry. -/
theorem assocGet_mem {α : Type} :
    ∀ (l : List (String × α)) (k : String) (v : α),
      assocGet l k = some v → (k, v) ∈ l
  | [], _, _, h => by simp [assocGet] at h
  | (k', v') :: t, k, v, h => by
    by_cases hk : k' = k
    · simp [assocGet, hk] at h
      subst hk
      subst h
      exact List.mem_cons_self _ _
    · simp [assocGet, hk] at h
      exact List.mem_cons_of_mem _ (assocGet_mem t k v h)

/-- Every entry after a write is the written pair or an old entry. -/
theorem mem_assocSet {α : Type} :
    ∀ (l : List (String × α)) (k : String) (v : α) (p : String × α),
      p ∈ assocSet l k v → p = (k, v) ∨ p ∈ l
  | [], k, v, p, h => Or.inl (by simpa [assocSet] using h)
  | (k', v') :: t, k, v, p, h => by
    by_cases hk : k' = k
    · simp [assocSet, hk] at h
      rcases h with h | h
      · exact Or.inl (by simp [h])
      · exact Or.inr (List.mem_cons_of_mem _ h)
    · simp only [assocSet, if_neg hk, List.mem_cons] at h
      rcases h with h | h
      · exact Or.inr (by simp [h])
      · rcases mem_assocSet t k v p h with h' | h'
        · exact Or.inl h'
        · exact Or.inr (List.mem_cons_of_mem _ h')

/-! Effect of each `JobManager` operation on the queried job. -/

/-- Lookup after `put` at the written key. -/
theorem get_job_put_self (m : JobManager) (key : String) (j : ProcessingJob) :
    (m.put key j).get_job key = some j :=
  assocGet_assocSet_self m.jobs key j

/-- `update_job_progress` stores exactly `update_progress` of the job. -/
theorem get_job_update_job_progress (m : JobManager) (idv : String)
    (j : ProcessingJob) (p : ℚ) (stage msg : String) (now : Nat)
    (h : m.get_job idv = some j) :
    (m.update_job_progress idv p stage msg now).get_job idv
      = some (j.update_progress p stage msg now) := by
  simp only [JobManager.update_job_progress, h]
  exact get_job_put_self m idv _

/-- `update_segment_status` stores exactly the recomputed job. -/
theorem get_job_update_segment_status (m : JobManager) (idv : String)
    (j : ProcessingJob) (idx : Nat) (st : JobStatus) (pp rp : Option String) (now : Nat)
    (h : m.get_job idv = some j) :
    (m.update_segment_status idv idx st pp rp now).get_job idv
      = some (j.update_segment_status idx st pp rp now) := by
  simp only [JobManager.update_segment_status, h]
  exact get_job_put_self m idv _

/-- `update_job_status` overwrites status and message unconditionally. -/
theorem get_job_update_job_status (m : JobManager) (idv : String)
    (j : ProcessingJob) (st : JobStatus) (msg : String) (p : Option ℚ)
    (h : m.get_job idv = some j) :
    (m.update_job_status idv st msg p).get_job idv
      = some { j with
               status := st,
               message := msg,
               progress := (match p with | some q => q | none => j.progress) } := by
  simp only [JobManager.update_job_status, h]
  exact get_job_put_self m idv _

/-- `complete_job` overwrites unconditionally. -/
theorem get_job_complete_job (m : JobManager) (idv : String)
    (j : ProcessingJob) (res : ProcessResults) (now : Nat)
    (h : m.get_job idv = some j) :
    (m.complete_job idv res now).get_job idv
      = some { j with
               status := JobStatus.completed,
               progress := 100,
               current_stage := "completed",
               message := "Job completed successfully",
               results := some res,
               updated_at := now } := by
  simp only [JobManager.complete_job, h]
  exact get_job_put_self m idv _

/-- `fail_job` overwrites unconditionally. -/
theorem get_job_fail_job (m : JobManager) (idv : String)
    (j : ProcessingJob) (err : String) (now : Nat)
    (h : m.get_job idv = some j) :
    (m.fail_job idv err now).get_job idv
      = some { j with
               status := JobStatus.failed,
               current_stage := "failed",
               message := "Job failed: " ++ err,
               updated_at := now } := by
  simp only [JobManager.fail_job, h]
  exact get_job_put_self m idv _

/-- `cancel_job` on a FAILED or CANCELLED job is a rejected no-op. -/
theorem cancel_job_terminal (m : JobManager) (idv : String) (j : ProcessingJob) (now : Nat)
    (h : m.get_job idv = some j)
    (hterm : j.status = JobStatus.failed ∨ j.status = JobStatus.cancelled) :
    m.cancel_job idv now = (m, false) := by
  simp only [JobManager.cancel_job, h]
  rcases hterm with ht | ht <;> rw [ht] <;> simp

/-! Claim C1. -/

/-- C1 counterexample: job `job1` is FAILED (terminal), yet a subsequent
`complete_job` call is not rejected — it overwrites the status to
COMPLETED, so a status transition out of a terminal status occurs. -/
theorem C1_counterexample :
    (c1m1.get_job "job1").map ProcessingJob.status = some JobStatus.failed
    ∧ (c1m2.get_job "job1").map ProcessingJob.status = some JobStatus.completed := by
  exact ⟨by decide, by decide⟩

/-- C1 (amended): of the four status-changing operations, only
`cancel_job` checks for a terminal status — cancelling a FAILED or
CANCELLED job is rejected and leaves the manager unchanged — while
`update_job_status`, `complete_job` and `fail_job` perform no
terminal-state check and overwrite the status of a terminal job
unconditionally. -/
theorem C1_terminal_check_only_in_cancel (m : JobManager) (idv : String)
    (j : ProcessingJob) (st : JobStatus) (msg err : String) (p : Option ℚ)
    (res : ProcessResults) (now : Nat)
    (h : m.get_job idv = some j)
    (hterm : j.status = JobStatus.failed ∨ j.status = JobStatus.cancelled) :
    m.cancel_job idv now = (m, false)
    ∧ ((m.update_job_status idv st msg p).get_job idv).map ProcessingJob.status = some st
    ∧ ((m.complete_job idv res now).get_job idv).map ProcessingJob.status
        = some JobStatus.completed
    ∧ ((m.fail_job idv err now).get_job idv).map ProcessingJob.status
        = some JobStatus.failed := by
  refine ⟨cancel_job_terminal m idv j now h hterm, ?_, ?_, ?_⟩
  · rw [get_job_update_job_status m idv j st msg p h]
    rfl
  · rw [get_job_complete_job m idv j res now h]
    rfl
  · rw [get_job_fail_job m idv j err now h]
    rfl

/-- C1 witness: the amended statement instantiated on the concrete
FAILED job `job1`. -/
theorem C1_witness :
    c1m1.get_job "job1" = some c1job
    ∧ (c1job.status = JobStatus.failed ∨ c1job.status = JobStatus.cancelled)
    ∧ (c1m1.cancel_job "job1" 5 = (c1m1, false)
       ∧ ((c1m1.update_job_status "job1" JobStatus.running "go" none).get_job "job1").map
           ProcessingJob.status = some JobStatus.running
       ∧ ((c1m1.complete_job "job1"
             { job_id := "job1", output_path := some "out.wav", segments := [] } 5).get_job
             "job1").map ProcessingJob.status = some JobStatus.completed
       ∧ ((c1m1.fail_job "job1" "again" 5).get_job "job1").map ProcessingJob.status
           = some JobStatus.failed) :=
  ⟨rfl, Or.inl rfl,
   C1_terminal_check_only_in_cancel c1m1 "job1" c1job JobStatus.running "go" "again" none
     { job_id := "job1", output_path := some "out.wav", segments := [] } 5 rfl (Or.inl rfl)⟩

/-! Claim C2. -/

/-- C2 counterexample: job `job1` is RUNNING with progress 50;
`update_job_progress` to 10 is applied verbatim — the recorded progress
regresses from 50 to 10 while the job is RUNNING, and no terminal
no-op guard exists either. -/
theorem C2_counterexample :
    (c2m1.get_job "job1").map ProcessingJob.status = some JobStatus.running
    ∧ (c2m1.get_job "job1").map ProcessingJob.progress = some 50
    ∧ (c2m2.get_job "job1").map ProcessingJob.progress = some 10
    ∧ (10 : ℚ) < 50 := by
  exact ⟨by decide, by decide, by decide, by decide⟩

/-- C2 (amended): `update_job_progress` applies unconditionally to any
existing job — it stores exactly the supplied progress, stage label and
message and bumps `updated_at`, regardless of the job's status (no
terminal no-op) and regardless of the previously recorded progress (no
monotonicity clamp), so progress may regress while RUNNING. -/
theorem C2_progress_set_unconditionally (m : JobManager) (idv : String)
    (j : ProcessingJob) (p : ℚ) (stage msg : String) (now : Nat)
    (h : m.get_job idv = some j) :
    (m.update_job_progress idv p stage msg now).get_job idv
      = some { j with progress := p, current_stage := stage, message := msg, updated_at := now } := by
  rw [get_job_update_job_progress m idv j p stage msg now h]
  rfl

/-- C2 witness: the amended statement instantiated on the concrete
RUNNING job at progress 50, with the regressing update to 10. -/
theorem C2_witness :
    c2m1.get_job "job1" = some c2job
    ∧ (c2m1.update_job_progress "job1" 10 "redo" "going backwards" 3).get_job "job1"
        = some { c2job with progress := 10, current_stage := "redo", message := "going backwards", updated_at := 3 } :=
  ⟨rfl, C2_progress_set_unconditionally c2m1 "job1" c2job 10 "redo" "going backwards" 3 rfl⟩

/-! Claim C10. -/

/-- C10: a `list_jobs` call whose status filter does not name a known
job status is silently ignored — the result is identical to the
unfiltered call: all statuses, sorted by creation time descending,
truncated to the limit. -/
theorem C10_invalid_filter_ignored (m : JobManager) (limit : Nat) (s : String)
    (h : JobStatus.ofString? (pyLower s) = none) :
    m.list_jobs limit (some s) = m.list_jobs limit none := by
  unfold JobManager.list_jobs
  by_cases hs : s.isEmpty
  · simp [hs]
  · simp [hs, h]

/-- C10 witness: "bogus" is not a job status; filtering by it returns
the same two jobs (FAILED `jobB` first, newest-first order) as the
unfiltered call. -/
theorem C10_witness :
    JobStatus.ofString? (pyLower "bogus") = none
    ∧ c10m.list_jobs 5 (some "bogus") = c10m.list_jobs 5 none :=
  ⟨by decide, C10_invalid_filter_ignored c10m 5 "bogus" (by decide)⟩

/-! Stage-execution lemmas. -/

/-- A stage helper with no input passes the empty input through. -/
theorem stage_exec_no_input (w : StageWrapper) (out : String) :
    stage_exec none w out = CallResult.ok none := rfl

/-- An unavailable wrapper makes the helper pass its input through. -/
theorem stage_exec_unavailable (input : Option String) (w : StageWrapper)
    (out : String) (hav : w.is_available = CallResult.ok false) :
    stage_exec input w out = CallResult.ok input := by
  cases input with
  | none => rfl
  | some ip =>
    simp only [stage_exec]
    by_cases hip : ip.isEmpty
    · simp [hip]
    · simp [hip, hav]

/-- A raised `process` error is caught inside the helper, which then
returns its input unchanged. -/
theorem stage_exec_process_exn (input : Option String) (w : StageWrapper)
    (out em : String) (hav : w.is_available = CallResult.ok true)
    (hproc : w.process = CallResult.exn em) :
    stage_exec input w out = CallResult.ok input := by
  cases input with
  | none => rfl
  | some ip =>
    simp only [stage_exec]
    by_cases hip : ip.isEmpty
    · simp [hip]
    · by_cases hl : w.is_loaded
      · simp [hip, hav, hl, stage_exec_process, hproc]
      · cases hld : w.load with
        | ok u => simp [hip, hav, hl, hld, stage_exec_process, hproc]
        | exn m => simp [hip, hav, hl, hld]

/-! Claim C4. -/

/-- C4 counterexample: the swiftf0 stage is enabled, its wrapper is
available and loaded, and its `process` call raises — yet the stage loop
records `completed` (with output equal to the unchanged input), not
`failed`: the error is swallowed inside `_process_swiftf0`, so the
outer `except` that would record `failed` is never reached. -/
theorem C4_counterexample :
    run_stage env1 "tmp"
      { swiftf0 := wRaises, svc := wUnavailable, instrumental := wUnavailable }
      cfg0 "j4" 0 (some "in.wav", []) "swiftf0"
      = (some "in.wav", [("swiftf0", StageRecord.completed (some "in.wav"))]) := by
  decide

/-- C4 (amended): when an enabled stage's `process` call raises, the
per-stage helper catches the error and returns the pre-stage audio, so
the current audio is unchanged and the next stage receives it — but the
segment's stage record for that stage is `completed` with output equal
to the pre-stage audio, not `failed(reason)`; a `failed` record is only
written for errors that escape the helper itself. -/
theorem C4_process_error_passthrough_recorded_completed (env : Env)
    (tmp : String) (ws : Wrappers) (cfg : AudioProcessingConfig)
    (job_id : String) (idx : Nat) (current : Option String)
    (d : List (String × StageRecord)) (em : String)
    (hen : cfg.swiftf0_enabled = true)
    (hav : ws.swiftf0.is_available = CallResult.ok true)
    (hproc : ws.swiftf0.process = CallResult.exn em) :
    run_stage env tmp ws cfg job_id idx (current, d) "swiftf0"
      = (current, dictSet d "swiftf0" (StageRecord.completed current)) := by
  simp only [run_stage, hen]
  rw [stage_exec_process_exn current ws.swiftf0 _ em hav hproc]
  simp

/-- C4 witness: the amended statement instantiated on the concrete
raising wrapper. -/
theorem C4_witness :
    cfg0.swiftf0_enabled = true
    ∧ ({ swiftf0 := wRaises, svc := wUnavailable, instrumental := wUnavailable
         : Wrappers }).swiftf0.is_available = CallResult.ok true
    ∧ ({ swiftf0 := wRaises, svc := wUnavailable, instrumental := wUnavailable
         : Wrappers }).swiftf0.process = CallResult.exn "CUDA out of memory"
    ∧ run_stage env1 "tmp"
        { swiftf0 := wRaises, svc := wUnavailable, instrumental := wUnavailable }
        cfg0 "j4w" 2 (some "pre.wav", []) "swiftf0"
        = (some "pre.wav", dictSet [] "swiftf0" (StageRecord.completed (some "pre.wav"))) :=
  ⟨rfl, rfl, rfl,
   C4_process_error_passthrough_recorded_completed env1 "tmp"
     { swiftf0 := wRaises, svc := wUnavailable, instrumental := wUnavailable }
     cfg0 "j4w" 2 (some "pre.wav") [] "CUDA out of memory" rfl rfl rfl⟩

/-! Claim C7. -/

/-- C7 counterexample: the swiftf0 stage is enabled and its wrapper
reports unavailable; the segment is indeed not blocked and the audio
passes through unchanged, but the stage record is
`completed` (with output equal to the input), not `skipped`. -/
theorem C7_counterexample :
    run_stage env1 "tmp" ws0 cfg0 "j7" 0 (some "in.wav", []) "swiftf0"
      = (some "in.wav", [("swiftf0", StageRecord.completed (some "in.wav"))]) := by
  decide

/-- C7 (amended): an enabled stage whose wrapper reports unavailable
never blocks the segment — the helper passes the audio through
unchanged — but the segment's stage record is `completed` with output
equal to the pre-stage audio, not `skipped`; a `skipped` record is only
ever written by the mixing branch. -/
theorem C7_unavailable_passthrough_recorded_completed (env : Env)
    (tmp : String) (ws : Wrappers) (cfg : AudioProcessingConfig)
    (job_id : String) (idx : Nat) (current : Option String)
    (d : List (String × StageRecord))
    (hen : cfg.swiftf0_enabled = true)
    (hav : ws.swiftf0.is_available = CallResult.ok false) :
    run_stage env tmp ws cfg job_id idx (current, d) "swiftf0"
      = (current, dictSet d "swiftf0" (StageRecord.completed current)) := by
  simp only [run_stage, hen]
  rw [stage_exec_unavailable current ws.swiftf0 _ hav]
  simp

/-- C7 witness: the amended statement instantiated on the concrete
unavailable wrapper. -/
theorem C7_witness :
    cfg0.swiftf0_enabled = true
    ∧ ws0.swiftf0.is_available = CallResult.ok false
    ∧ run_stage env1 "tmp" ws0 cfg0 "j7w" 1 (some "pre.wav", []) "swiftf0"
        = (some "pre.wav", dictSet [] "swiftf0" (StageRecord.completed (some "pre.wav"))) :=
  ⟨rfl, rfl,
   C7_unavailable_passthrough_recorded_completed env1 "tmp" ws0 cfg0 "j7w" 1
     (some "pre.wav") [] rfl rfl⟩

/-! Claim C6. -/

/-- The stage-name validator rejects any list containing an unknown
name. -/
theorem validate_pipeline_stages_error (stages : List String) (s : String)
    (hs : s ∈ stages) (hbad : s ∉ valid_pipeline_stage_names) :
    ∃ msg, validate_pipeline_stages stages = Except.error msg := by
  unfold validate_pipeline_stages
  have hsome : (stages.find? (fun x => !(valid_pipeline_stage_names.contains x))).isSome := by
    rw [List.find?_isSome]
    refine ⟨s, hs, ?_⟩
    simp only [Bool.not_eq_true']
    simpa using hbad
  cases hf : stages.find? (fun x => !(valid_pipeline_stage_names.contains x)) with
  | none => rw [hf] at hsome; simp at hsome
  | some x => exact ⟨"Invalid pipeline stage: " ++ x, rfl⟩

/-- C6 counterexample: a `create_job` call whose only segment spec has
`end_time = 3 <= 5 = start_time` does not fail — the job is created
with status QUEUED and the malformed bounds stored verbatim. -/
theorem C6_counterexample :
    (3 : ℚ) ≤ 5
    ∧ (c6m.get_job "job6").map
        (fun j => (j.status, j.segments.map (fun s => (s.start_time, s.end_time))))
        = some (JobStatus.queued, [(5, 3)]) := by
  exact ⟨by norm_num, by decide⟩

/-- C6 (amended): unknown stage names are rejected — but by the config
model's own pydantic validator at config-construction time, before any
job exists, not by `create_job`; `create_job` itself performs no
validation at all: it accepts any segment specs (including
`endTime <= startTime`, which the source never checks) and on every
call produces a job with status QUEUED, progress 0, one segment per
spec, and a persisted snapshot. -/
theorem C6_validation_at_config_only (stages : List String) (s : String)
    (m : JobManager) (cfg : AudioProcessingConfig) (specs : List SegmentSpec)
    (idv : String) (now : Nat)
    (hs : s ∈ stages) (hbad : s ∉ valid_pipeline_stage_names) :
    (∃ msg, validate_pipeline_stages stages = Except.error msg)
    ∧ (∃ j, ((m.create_job cfg specs idv now).1).get_job idv = some j
        ∧ j.status = JobStatus.queued
        ∧ j.progress = 0
        ∧ j.segments.length = specs.length
        ∧ assocGet ((m.create_job cfg specs idv now).1).store idv = some j) := by
  refine ⟨validate_pipeline_stages_error stages s hs hbad, ?_⟩
  refine ⟨ProcessingJob.create idv cfg specs now, ?_, rfl, rfl, ?_, ?_⟩
  · exact get_job_put_self m idv _
  · simp [ProcessingJob.create]
  · exact assocGet_assocSet_self m.store idv _

/-- C6 witness: the amended statement instantiated with the unknown
stage name "mastering" and the backwards segment spec `c6spec`. -/
theorem C6_witness :
    ("mastering" ∈ ["mastering"] ∧ "mastering" ∉ valid_pipeline_stage_names)
    ∧ ((∃ msg, validate_pipeline_stages ["mastering"] = Except.error msg)
       ∧ (∃ j, ((JobManager.empty.create_job cfg0 [c6spec] "job6" 0).1).get_job "job6" = some j
           ∧ j.status = JobStatus.queued
           ∧ j.progress = 0
           ∧ j.segments.length = [c6spec].length
           ∧ assocGet ((JobManager.empty.create_job cfg0 [c6spec] "job6" 0).1).store "job6"
               = some j)) :=
  ⟨⟨by decide, by decide⟩,
   C6_validation_at_config_only ["mastering"] "mastering" JobManager.empty cfg0 [c6spec]
     "job6" 0 (by decide) (by decide)⟩

/-! Claim C3. -/

/-- C3 counterexample: job `j3` (5 segments) is successfully cancelled
after segment 2 completes, yet the orchestrator's next loop iteration
— the source consults no job status anywhere in its segment loop —
still processes segment 3 and marks it COMPLETED instead of leaving it
QUEUED: a further segment does begin after cancellation. -/
theorem C3_counterexample :
    c3cancel.2 = true
    ∧ ((c3final.get_job "j3").map
        (fun j => (j.segments.map AudioSegment.status).getD 3 JobStatus.running))
        = some JobStatus.completed := by
  exact ⟨by decide, by decide⟩

/-- C3 (amended): `cancel_job` during the run does succeed — the job's
status becomes CANCELLED, segments 0-2 keep their COMPLETED status and
their produced artifacts, and segments 3-4 are still QUEUED at that
instant — but the orchestrator never re-reads the job status, so its
next iteration processes segment 3 to COMPLETED (with a new artifact)
rather than stopping; not-yet-started segments do not remain QUEUED
once the loop continues. -/
theorem C3_cancel_not_observed_by_loop :
    c3cancel.2 = true
    ∧ (c3m5.get_job "j3").map
        (fun j => (j.status, j.segments.map (fun s => (s.status, s.result_path))))
        = some (JobStatus.cancelled,
          [ (JobStatus.completed, some "tmp/j3_segment_0_final.wav")
          , (JobStatus.completed, some "tmp/j3_segment_1_final.wav")
          , (JobStatus.completed, some "tmp/j3_segment_2_final.wav")
          , (JobStatus.queued, none)
          , (JobStatus.queued, none) ])
    ∧ (c3final.get_job "j3").map
        (fun j => (j.status, j.segments.map (fun s => (s.status, s.result_path))))
        = some (JobStatus.cancelled,
          [ (JobStatus.completed, some "tmp/j3_segment_0_final.wav")
          , (JobStatus.completed, some "tmp/j3_segment_1_final.wav")
          , (JobStatus.completed, some "tmp/j3_segment_2_final.wav")
          , (JobStatus.completed, some "tmp/j3_segment_3_final.wav")
          , (JobStatus.queued, none) ]) := by
  exact ⟨by decide, by decide, by decide⟩

/-! Claim C5. -/

/-- C5 counterexample: segment 0 of job `job5` has no source audio and
every stage is unavailable, so `_process_segment` yields no output path
at all — yet the orchestrator still marks the segment COMPLETED (with
no artifact recorded); no Failed-marking path exists in the segment
loop. -/
theorem C5_counterexample :
    c5r.output_path = none
    ∧ (c5m1.get_job "job5").map
        (fun j => j.segments.map (fun s => (s.status, s.result_path)))
        = some [(JobStatus.completed, none)] := by
  exact ⟨by decide, by decide⟩

/-- Successful indexing implies the index is in range. -/
theorem list_getq_lt {α : Type} :
    ∀ (l : List α) (i : Nat) (a : α), l[i]? = some a → i < l.length
  | [], i, a, h => by simp at h
  | x :: t, 0, a, _ => Nat.succ_pos _
  | x :: t, i + 1, a, h => by
    have := list_getq_lt t i a (by simpa using h)
    simpa using Nat.succ_lt_succ this

/-- Indexing after `set` at the written position. -/
theorem list_getq_set_self {α : Type} :
    ∀ (l : List α) (i : Nat) (a : α), i < l.length → (l.set i a)[i]? = some a
  | [], i, a, h => by simp at h
  | x :: t, 0, a, _ => by simp
  | x :: t, i + 1, a, h => by
    simpa using list_getq_set_self t i a (Nat.lt_of_succ_lt_succ (by simpa using h))

/-- `update_segment_status` with an in-range index: the stored job. -/
theorem update_segment_status_eq_some (j : ProcessingJob) (idx : Nat)
    (st : JobStatus) (pp rp : Option String) (now : Nat) (s : AudioSegment)
    (hs : j.segments[idx]? = some s) :
    j.update_segment_status idx st pp rp now
      = { j with
          segments := j.segments.set idx (s.apply_status_update st pp rp),
          segments_completed :=
            (j.segments.set idx (s.apply_status_update st pp rp)).countP segStatusDone,
          updated_at := now } := by
  unfold ProcessingJob.update_segment_status
  rw [hs]

/-- C5 (amended): after a segment's stages run, the orchestrator marks
the segment COMPLETED unconditionally — even when `_process_segment`
produced no usable audio reference (`output_path = none`), in which
case the segment keeps whatever `result_path` it had (none for a fresh
job) and is still marked COMPLETED; no code path in the segment loop
ever marks a segment Failed. -/
theorem C5_segment_completed_without_audio (env : Env) (tmp : String)
    (ws : Wrappers) (cfg : AudioProcessingConfig) (m : JobManager)
    (idv : String) (total now idx : Nat) (seg : SegmentSpec)
    (j : ProcessingJob) (s0 : AudioSegment) (r : SegmentResult)
    (hj : m.get_job idv = some j) (hseg : j.segments[idx]? = some s0)
    (hps : process_segment env tmp idv idx seg cfg ws = CallResult.ok r)
    (hout : r.output_path = none) :
    ∃ j' s', ((segment_step env tmp ws cfg idv total now m idx seg).1).get_job idv = some j'
      ∧ j'.segments[idx]? = some s'
      ∧ s'.status = JobStatus.completed
      ∧ s'.result_path = s0.result_path := by
  have key : (segment_step env tmp ws cfg idv total now m idx seg).1
      = ((m.update_job_progress idv ((idx : ℚ) / (total : ℚ) * 100)
            ("processing_segment_" ++ toString idx)
            ("Processing segment " ++ toString (idx + 1) ++ "/" ++ toString total)
            now).update_segment_status idv idx JobStatus.running none none
            now).update_segment_status idv idx JobStatus.completed r.preview_path
            r.output_path now := by
    simp only [segment_step, hps]
  set pr := ((idx : ℚ) / (total : ℚ) * 100) with hpr
  set lbl := "processing_segment_" ++ toString idx with hlbl
  set msg := "Processing segment " ++ toString (idx + 1) ++ "/" ++ toString total with hmsg
  set j1 := j.update_progress pr lbl msg now with hj1
  have hget1 : (m.update_job_progress idv pr lbl msg now).get_job idv = some j1 :=
    get_job_update_job_progress m idv j pr lbl msg now hj
  have hsegs1 : j1.segments = j.segments := rfl
  have hseg1 : j1.segments[idx]? = some s0 := by rw [hsegs1]; exact hseg
  set s1 := s0.apply_status_update JobStatus.running none none with hs1
  set j2 := j1.update_segment_status idx JobStatus.running none none now with hj2def
  have hget2 :
      ((m.update_job_progress idv pr lbl msg now).update_segment_status idv idx
        JobStatus.running none none now).get_job idv = some j2 :=
    get_job_update_segment_status _ idv j1 idx JobStatus.running none none now hget1
  have hlt : idx < j.segments.length := list_getq_lt j.segments idx s0 hseg
  have hsegs2 : j2.segments = j.segments.set idx s1 := by
    rw [hj2def, update_segment_status_eq_some j1 idx JobStatus.running none none now s0 hseg1]
    rfl
  have hseg2 : j2.segments[idx]? = some s1 := by
    rw [hsegs2]
    exact list_getq_set_self j.segments idx s1 hlt
  set s2 := s1.apply_status_update JobStatus.completed r.preview_path none with hs2
  set j3 := j2.update_segment_status idx JobStatus.completed r.preview_path none now with hj3def
  have hget3 :
      (((m.update_job_progress idv pr lbl msg now).update_segment_status idv idx
          JobStatus.running none none now).update_segment_status idv idx
          JobStatus.completed r.preview_path r.output_path now).get_job idv = some j3 := by
    rw [hout]
    exact get_job_update_segment_status _ idv j2 idx JobStatus.completed r.preview_path none
      now hget2
  have hsegs3 : j3.segments = j2.segments.set idx s2 := by
    rw [hj3def, update_segment_status_eq_some j2 idx JobStatus.completed r.preview_path none
      now s1 hseg2]
  have hlt2 : idx < j2.segments.length := list_getq_lt j2.segments idx s1 hseg2
  have hseg3 : j3.segments[idx]? = some s2 := by
    rw [hsegs3]
    exact list_getq_set_self j2.segments idx s2 hlt2
  refine ⟨j3, s2, ?_, hseg3, rfl, rfl⟩
  rw [key]
  exact hget3

/-- C5 witness: the amended statement instantiated on the concrete
audio-less segment of job `job5`. -/
theorem C5_witness :
    (c5m0.get_job "job5" = some c5job
     ∧ c5job.segments[0]? = some (mk_segment 0 spec0)
     ∧ process_segment env0 "tmp" "job5" 0 spec0 cfg0 ws0 = CallResult.ok c5r
     ∧ c5r.output_path = none)
    ∧ (∃ j' s', ((segment_step env0 "tmp" ws0 cfg0 "job5" 1 1 c5m0 0 spec0).1).get_job "job5"
          = some j'
        ∧ j'.segments[0]? = some s'
        ∧ s'.status = JobStatus.completed
        ∧ s'.result_path = (mk_segment 0 spec0).result_path) :=
  ⟨⟨rfl, rfl, rfl, rfl⟩,
   C5_segment_completed_without_audio env0 "tmp" ws0 cfg0 c5m0 "job5" 1 1 0 spec0 c5job
     (mk_segment 0 spec0) c5r rfl rfl rfl rfl⟩

/-! Claim C9. -/

/-- Freshly created segments are QUEUED, hence not counted as done. -/
theorem segStatusDone_mk_segment (i : Nat) (s : SegmentSpec) :
    segStatusDone (mk_segment i s) = false := rfl

/-- A freshly created job satisfies the `segments_completed` invariant. -/
theorem seg_inv_create (idv : String) (cfg : AudioProcessingConfig)
    (specs : List SegmentSpec) (now : Nat) :
    seg_inv (ProcessingJob.create idv cfg specs now) := by
  unfold seg_inv
  show 0 = ((specs.enum.map fun p => mk_segment p.1 p.2).countP segStatusDone)
  rw [List.countP_map]
  symm
  rw [List.countP_eq_zero]
  intro a _
  simp [Function.comp, segStatusDone_mk_segment]

/-- `update_segment_status` preserves the invariant: in range it
recomputes the count from the very predicate of the invariant, out of
range it changes nothing. -/
theorem seg_inv_update_segment_status (j : ProcessingJob) (idx : Nat)
    (st : JobStatus) (pp rp : Option String) (now : Nat) (h : seg_inv j) :
    seg_inv (j.update_segment_status idx st pp rp now) := by
  unfold ProcessingJob.update_segment_status
  split
  · exact rfl
  · exact h

/-- Every entry of a fresh manager satisfies the invariant. -/
theorem entries_inv_empty : JobManager.empty.entries_inv := by
  intro p hp
  simp [JobManager.empty] at hp

/-- `put` with an invariant-satisfying job preserves the entry
invariant. -/
theorem entries_inv_put (m : JobManager) (key : String) (j : ProcessingJob)
    (hm : m.entries_inv) (hj : seg_inv j) : (m.put key j).entries_inv := by
  intro p hp
  rcases mem_assocSet m.jobs key j p hp with h | h
  · rw [h]
    exact hj
  · exact hm p h

/-- A successful `get_job` on an invariant-satisfying manager yields an
invariant-satisfying job. -/
theorem entries_inv_get (m : JobManager) (idv : String) (j : ProcessingJob)
    (hm : m.entries_inv) (h : m.get_job idv = some j) : seg_inv j :=
  hm (idv, j) (assocGet_mem m.jobs idv j h)

/-- Every `JobManager` operation preserves the entry invariant. -/
theorem entries_inv_apply (m : JobManager) (op : JMOp) (hm : m.entries_inv) :
    (m.apply op).entries_inv := by
  cases op with
  | create cfg specs idv now =>
    exact entries_inv_put m idv _ hm (seg_inv_create idv cfg specs now)
  | updateStatus idv st msg p =>
    show (m.update_job_status idv st msg p).entries_inv
    unfold JobManager.update_job_status
    split
    · rename_i j h
      exact entries_inv_put m idv _ hm (entries_inv_get m idv j hm h)
    · exact hm
  | updateProgress idv p stage msg now =>
    show (m.update_job_progress idv p stage msg now).entries_inv
    unfold JobManager.update_job_progress
    split
    · rename_i j h
      exact entries_inv_put m idv _ hm (entries_inv_get m idv j hm h)
    · exact hm
  | updateSegment idv idx st pp rp now =>
    show (m.update_segment_status idv idx st pp rp now).entries_inv
    unfold JobManager.update_segment_status
    split
    · rename_i j h
      exact entries_inv_put m idv _ hm
        (seg_inv_update_segment_status j idx st pp rp now (entries_inv_get m idv j hm h))
    · exact hm
  | complete idv results now =>
    show (m.complete_job idv results now).entries_inv
    unfold JobManager.complete_job
    split
    · rename_i j h
      exact entries_inv_put m idv _ hm (entries_inv_get m idv j hm h)
    · exact hm
  | fail idv err now =>
    show (m.fail_job idv err now).entries_inv
    unfold JobManager.fail_job
    split
    · rename_i j h
      exact entries_inv_put m idv _ hm (entries_inv_get m idv j hm h)
    · exact hm
  | cancel idv now =>
    show ((m.cancel_job idv now).1).entries_inv
    unfold JobManager.cancel_job
    split
    · rename_i j h
      split
      · exact entries_inv_put m idv _ hm (entries_inv_get m idv j hm h)
      · exact hm
    · exact hm
  | delete idv =>
    show ((m.delete_job idv).1).entries_inv
    unfold JobManager.delete_job
    split
    · intro p hp
      exact hm p (List.mem_of_mem_filter hp)
    · exact hm

/-- The entry invariant holds after any operation sequence from a
fresh manager. -/
theorem entries_inv_run (ops : List JMOp) : (JobManager.run_ops ops).entries_inv := by
  suffices h : ∀ (l : List JMOp) (m : JobManager), m.entries_inv →
      (l.foldl JobManager.apply m).entries_inv by
    exact h ops JobManager.empty entries_inv_empty
  intro l
  induction l with
  | nil => exact fun m hm => hm
  | cons op rest ih => exact fun m hm => ih (m.apply op) (entries_inv_apply m op hm)

/-- C9: at every observation point — any job visible after any sequence
of `JobManager` operations from a fresh manager — `segments_completed`
equals the count of segments whose status is COMPLETED or FAILED; the
count is recomputed from segment state by `update_segment_status` and
never tracked independently by any other operation. -/
theorem C9_segments_completed_invariant (ops : List JMOp) (idv : String)
    (j : ProcessingJob) (h : (JobManager.run_ops ops).get_job idv = some j) :
    j.segments_completed = j.segments.countP segStatusDone :=
  entries_inv_get _ idv j (entries_inv_run ops) h

/-- C9 witness: the invariant instantiated after a creation followed by
a segment completion. -/
theorem C9_witness :
    (JobManager.run_ops c9ops).get_job "j9" = some c9job
    ∧ c9job.segments_completed = c9job.segments.countP segStatusDone :=
  ⟨rfl, C9_segments_completed_invariant c9ops "j9" c9job rfl⟩

/-! Claim C8 machinery: a job none of whose segments has source audio
produces no valid segment outputs, so the combiner raises and
`process_job` fails the job. -/

/-- With no current audio, every stage branch passes `none` through. -/
theorem run_stage_none (env : Env) (tmp : String) (ws : Wrappers)
    (cfg : AudioProcessingConfig) (idv : String) (idx : Nat)
    (d : List (String × StageRecord)) (stage : String) :
    (run_stage env tmp ws cfg idv idx (none, d) stage).1 = none := by
  simp only [run_stage]
  split_ifs <;> simp [stage_exec_no_input]

/-- The whole stage fold keeps the current audio at `none`. -/
theorem foldl_run_stage_none (env : Env) (tmp : String) (ws : Wrappers)
    (cfg : AudioProcessingConfig) (idv : String) (idx : Nat) :
    ∀ (stages : List String) (d : List (String × StageRecord)),
      (stages.foldl (run_stage env tmp ws cfg idv idx) (none, d)).1 = none
  | [], _ => rfl
  | s :: rest, d => by
    rw [List.foldl_cons]
    cases hrs : run_stage env tmp ws cfg idv idx (none, d) s with
    | mk c d' =>
      have hc : c = none := by
        have h := run_stage_none env tmp ws cfg idv idx d s
        rw [hrs] at h
        exact h
      rw [hc]
      exact foldl_run_stage_none env tmp ws cfg idv idx rest d'

/-- A segment without source audio yields a result with no output or
preview path (and never raises: `_convert_audio` is not reached). -/
theorem process_segment_no_original (env : Env) (tmp : String) (idv : String)
    (idx : Nat) (seg : SegmentSpec) (cfg : AudioProcessingConfig) (ws : Wrappers)
    (h : seg.original_path = none) :
    ∃ stagesd, process_segment env tmp idv idx seg cfg ws
      = CallResult.ok
          { segment_idx := idx, start_time := seg.start_time, end_time := seg.end_time,
            output_path := none, preview_path := none, stages := stagesd } := by
  simp only [process_segment, h]
  rw [foldl_run_stage_none env tmp ws cfg idv idx cfg.pipeline_stages []]
  exact ⟨_, rfl⟩

/-- `update_segment_status` never touches the `results` dict. -/
theorem update_segment_status_results (j : ProcessingJob) (idx : Nat)
    (st : JobStatus) (pp rp : Option String) (now : Nat) :
    (j.update_segment_status idx st pp rp now).results = j.results := by
  unfold ProcessingJob.update_segment_status
  split <;> rfl

/-- Membership in `enumFrom` projects to membership in the list. -/
theorem snd_mem_enumFrom {α : Type} :
    ∀ (l : List α) (n : Nat) (p : Nat × α), p ∈ List.enumFrom n l → p.2 ∈ l
  | [], _, _, h => by simp [List.enumFrom] at h
  | x :: t, n, p, h => by
    simp only [List.enumFrom, List.mem_cons] at h
    rcases h with h | h
    · rw [h]
      exact List.mem_cons_self _ _
    · exact List.mem_cons_of_mem _ (snd_mem_enumFrom t (n + 1) p h)

/-- Membership in `enum` projects to membership in the list. -/
theorem snd_mem_enum {α : Type} (l : List α) (p : Nat × α) (h : p ∈ l.enum) :
    p.2 ∈ l :=
  snd_mem_enumFrom l 0 p h

/-- The segment loop over audio-less segments completes every step,
produces only output-less results, keeps the job present, and never
touches its `results` dict. -/
theorem process_loop_all_none (env : Env) (tmp : String) (ws : Wrappers)
    (cfg : AudioProcessingConfig) (idv : String) (total now : Nat) :
    ∀ (l : List (Nat × SegmentSpec)) (m : JobManager) (acc : List SegmentResult)
      (j : ProcessingJob),
      (∀ p ∈ l, (Prod.snd p).original_path = none) →
      m.get_job idv = some j →
      ∃ m' rs j',
        process_loop env tmp ws cfg idv total now m acc l = (m', CallResult.ok (acc ++ rs))
        ∧ (∀ r ∈ rs, r.output_path = none)
        ∧ m'.get_job idv = some j'
        ∧ j'.results = j.results
  | [], m, acc, j, _, hj => ⟨m, [], j, by simp [process_loop], by simp, hj, rfl⟩
  | (idx, seg) :: rest, m, acc, j, hl, hj => by
    obtain ⟨stagesd, hps⟩ := process_segment_no_original env tmp idv idx seg cfg ws
      (hl (idx, seg) (List.mem_cons_self _ _))
    set r : SegmentResult :=
      { segment_idx := idx, start_time := seg.start_time, end_time := seg.end_time,
        output_path := none, preview_path := none, stages := stagesd } with hr
    set pr := ((idx : ℚ) / (total : ℚ) * 100) with hpr
    set lbl := "processing_segment_" ++ toString idx with hlbl
    set msgs := "Processing segment " ++ toString (idx + 1) ++ "/" ++ toString total with hmsg
    set m3 := ((m.update_job_progress idv pr lbl msgs now).update_segment_status idv idx
      JobStatus.running none none now).update_segment_status idv idx JobStatus.completed
      r.preview_path r.output_path now with hm3
    have hstep : segment_step env tmp ws cfg idv total now m idx seg
        = (m3, CallResult.ok r) := by
      simp only [segment_step, hps, hm3, hpr, hlbl, hmsg, hr]
    set j1 := j.update_progress pr lbl msgs now with hj1
    have hget1 : (m.update_job_progress idv pr lbl msgs now).get_job idv = some j1 :=
      get_job_update_job_progress m idv j pr lbl msgs now hj
    set j2 := j1.update_segment_status idx JobStatus.running none none now with hj2
    have hget2 : ((m.update_job_progress idv pr lbl msgs now).update_segment_status idv idx
        JobStatus.running none none now).get_job idv = some j2 :=
      get_job_update_segment_status _ idv j1 idx JobStatus.running none none now hget1
    set j3 := j2.update_segment_status idx JobStatus.completed r.preview_path r.output_path
      now with hj3
    have hget3 : m3.get_job idv = some j3 :=
      get_job_update_segment_status _ idv j2 idx JobStatus.completed r.preview_path
        r.output_path now hget2
    have hres3 : j3.results = j.results := by
      rw [hj3, update_segment_status_results, hj2, update_segment_status_results]
      rfl
    obtain ⟨m', rs, j', hloop, hnone, hget, hres'⟩ :=
      process_loop_all_none env tmp ws cfg idv total now rest m3 (acc ++ [r]) j3
        (fun p hp => hl p (List.mem_cons_of_mem _ hp)) hget3
    refine ⟨m', r :: rs, j', ?_, ?_, hget, by rw [hres', hres3]⟩
    · simp only [process_loop, hstep, hloop]
      simp
    · intro r' hr'
      rcases List.mem_cons.mp hr' with h | h
      · rw [h]
      · exact hnone r' h

/-- Results all lacking an output path filter to the empty list. -/
theorem filter_truthy_none (rs : List SegmentResult)
    (h : ∀ r ∈ rs, r.output_path = none) :
    rs.filter (fun s => optStrTruthy s.output_path) = [] := by
  rw [List.filter_eq_nil_iff]
  intro a ha
  rw [h a ha]
  simp [optStrTruthy]

/-- The combiner with an all-filtered-out input raises
`NoValidSegments`. -/
theorem combine_segments_empty (env : Env) (tmp : String)
    (cfg : AudioProcessingConfig) (idv : String) (segs : List SegmentResult)
    (h : segs.filter (fun s => optStrTruthy s.output_path) = []) :
    combine_segments env tmp segs cfg idv
      = CallResult.exn "No valid segments to combine" := by
  unfold combine_segments
  rw [h]
  rfl

/-! Claim C8. -/

/-- C8: whenever the per-segment results filter down to zero valid
output references, the combiner raises `NoValidSegments` ("No valid
segments to combine"); run end-to-end on a job none of whose segments
has source audio, the error propagates out of the pipeline and
`process_job` transitions the job to FAILED with the error recorded in
its message and `results` (hence `results.outputPath`) still unset. -/
theorem C8_no_valid_segments (env : Env) (tmp : String) (ws : Wrappers)
    (cfg : AudioProcessingConfig) (specs : List SegmentSpec) (idv : String)
    (m : JobManager) (j : ProcessingJob) (now : Nat)
    (hspecs : ∀ s ∈ specs, s.original_path = none)
    (hj : m.get_job idv = some j) (hres : j.results = none) :
    (∀ segs : List SegmentResult,
        segs.filter (fun s => optStrTruthy s.output_path) = [] →
        combine_segments env tmp segs cfg idv
          = CallResult.exn "No valid segments to combine")
    ∧ ∃ j', (process_job env tmp ws idv cfg specs m now).get_job idv = some j'
        ∧ j'.status = JobStatus.failed
        ∧ j'.results = none
        ∧ j'.message = "Job failed: No valid segments to combine" := by
  refine ⟨fun segs h => combine_segments_empty env tmp cfg idv segs h, ?_⟩
  set m1 := m.update_job_status idv JobStatus.running "Starting pipeline" none with hm1
  set j1 : ProcessingJob :=
    { j with
      status := JobStatus.running
      message := "Starting pipeline"
      progress := j.progress } with hj1def
  have hget1 : m1.get_job idv = some j1 :=
    get_job_update_job_status m idv j JobStatus.running "Starting pipeline" none hj
  have henum : ∀ p ∈ specs.enum, (Prod.snd p).original_path = none :=
    fun p hp => hspecs p.2 (snd_mem_enum specs p hp)
  obtain ⟨m', rs, j', hloop, hnone, hget, hres'⟩ :=
    process_loop_all_none env tmp ws cfg idv specs.length now specs.enum m1 [] j1 henum hget1
  have hproc : process env tmp ws idv cfg specs m1 now
      = (m'.update_job_progress idv 90 "combining_segments"
          "Combining processed segments" now,
         CallResult.exn "No valid segments to combine") := by
    unfold process
    rw [hloop]
    simp only [List.nil_append]
    rw [combine_segments_empty env tmp cfg idv rs (filter_truthy_none rs hnone)]
  have hfin : process_job env tmp ws idv cfg specs m now
      = (m'.update_job_progress idv 90 "combining_segments"
          "Combining processed segments" now).fail_job idv
          "No valid segments to combine" now := by
    unfold process_job
    rw [← hm1]
    simp only [hproc]
  set j2 := j'.update_progress 90 "combining_segments" "Combining processed segments" now
    with hj2def
  have hget2 : (m'.update_job_progress idv 90 "combining_segments"
      "Combining processed segments" now).get_job idv = some j2 :=
    get_job_update_job_progress m' idv j' 90 "combining_segments"
      "Combining processed segments" now hget
  have hget3 := get_job_fail_job _ idv j2 "No valid segments to combine" now hget2
  refine ⟨{ j2 with
            status := JobStatus.failed
            current_stage := "failed"
            message := "Job failed: " ++ "No valid segments to combine"
            updated_at := now }, ?_, rfl, ?_, rfl⟩
  · rw [hfin]
    exact hget3
  · have h2 : j2.results = none := by
      have hx : j2.results = j.results := hres'
      rw [hx, hres]
    exact h2

/-- C8 witness: the end-to-end behaviour instantiated on the concrete
one-segment audio-less job `job8`. -/
theorem C8_witness :
    ((∀ s ∈ c8specs, s.original_path = none)
     ∧ c8m.get_job "job8" = some c8job
     ∧ c8job.results = none)
    ∧ ((∀ segs : List SegmentResult,
          segs.filter (fun s => optStrTruthy s.output_path) = [] →
          combine_segments env0 "tmp" segs cfg0 "job8"
            = CallResult.exn "No valid segments to combine")
       ∧ ∃ j', (process_job env0 "tmp" ws0 "job8" cfg0 c8specs c8m 9).get_job "job8" = some j'
           ∧ j'.status = JobStatus.failed
           ∧ j'.results = none
           ∧ j'.message = "Job failed: No valid segments to combine") :=
  ⟨⟨by decide, rfl, rfl⟩,
   C8_no_valid_segments env0 "tmp" ws0 cfg0 c8specs "job8" c8m c8job 9 (by decide) rfl rfl⟩
